import Mathlib

/-!
Verification development for the `mmo_express` control-plane backend
(`src/frontend/src-tauri/src/lib.rs` and `src/frontend/src-tauri/src/database.rs`).

The sidecar bridge (`send_command`, `start_sidecar`, `SidecarState`) is embedded
as a state-transition function over an explicit bridge state, with the
behaviour of the operating system and of the worker process (spawn outcome,
pipe write outcome, the line read from the worker's stdout) supplied by an
explicit per-call environment.  JSON values are embedded structurally as an
inductive type; serialization to text is the `serde_json` library's concern
and is modelled at the value level, with a line of worker output represented
either as a value (the line parsed) or as a `malformed` token carrying the
parser's error text.

The record store (`database.rs`) is embedded relationally: the database is the
contents of its four tables as lists of rows, and each CRUD operation is the
list transformation the corresponding SQL statement performs.
-/

namespace MmoExpress

/-- Structural model of `serde_json::Value` as used by the bridge: JSON values.
Numbers are modelled as integers (the protocol's `id` is a `u64`; argument
payloads are opaque and only carried, never computed with). -/
inductive Json where
  | null : Json
  | bool (b : Bool) : Json
  | num (n : Int) : Json
  | str (s : String) : Json
  | arr (elems : List Json) : Json
  | obj (fields : List (String × Json)) : Json

/-- `struct SidecarResponse` (lib.rs:46-51): three optional fields. -/
structure SidecarResponse where
  id : Option Nat
  result : Option Json
  error : Option String

/-- 2^64, the modulus of the `u64` request counter. -/
def u64Mod : Nat := 2 ^ 64

/-- serde semantics of the `id: Option<u64>` field: JSON `null` is `None`,
a non-negative integer below 2^64 is `Some`, anything else is a type error. -/
def parseIdField : Json → Except String (Option Nat)
  | .null => .ok none
  | .num n => if 0 ≤ n ∧ n < (u64Mod : Int) then .ok (some n.toNat)
              else .error "invalid type: expected u64 for field id"
  | _ => .error "invalid type: expected u64 for field id"

/-- serde semantics of the `result: Option<Value>` field: JSON `null` is
`None`, any other value deserializes as itself. No type mismatch is possible. -/
def parseResultField : Json → Except String (Option Json)
  | .null => .ok none
  | v => .ok (some v)

/-- serde semantics of the `error: Option<String>` field. -/
def parseErrorField : Json → Except String (Option String)
  | .null => .ok none
  | .str s => .ok (some s)
  | _ => .error "invalid type: expected string for field error"

/-- Accumulator while walking the fields of a response object: `none` means
the field has not been seen yet, `some v` that it was seen and parsed to `v`. -/
structure RespAcc where
  idF : Option (Option Nat)
  resF : Option (Option Json)
  errF : Option (Option String)

/-- Field-by-field deserialization of `SidecarResponse` from a JSON object,
mirroring serde's derived deserializer: known fields are parsed by type and
may appear at most once; unknown fields are ignored; missing optional fields
default to `None`. -/
def fromFields : List (String × Json) → RespAcc → Except String SidecarResponse
  | [], acc => .ok ⟨acc.idF.getD none, acc.resF.getD none, acc.errF.getD none⟩
  | (k, v) :: rest, acc =>
    if k = "id" then
      match acc.idF with
      | some _ => .error "duplicate field id"
      | none =>
        match parseIdField v with
        | .error e => .error e
        | .ok x => fromFields rest { acc with idF := some x }
    else if k = "result" then
      match acc.resF with
      | some _ => .error "duplicate field result"
      | none =>
        match parseResultField v with
        | .error e => .error e
        | .ok x => fromFields rest { acc with resF := some x }
    else if k = "error" then
      match acc.errF with
      | some _ => .error "duplicate field error"
      | none =>
        match parseErrorField v with
        | .error e => .error e
        | .ok x => fromFields rest { acc with errF := some x }
    else
      fromFields rest acc

/-- Deserializing a `SidecarResponse` from a JSON value, following serde's
derived struct deserializer: an object is processed field by field
(`visit_map`), and an array is accepted positionally (`visit_seq`) — it must
hold exactly three elements, deserialized in declaration order as `id`,
`result`, `error` (fewer elements is an invalid-length error, extra elements
are rejected when the deserializer expects the closing bracket).  Every other
value is an invalid-type error. -/
def responseFromJson : Json → Except String SidecarResponse
  | .obj fs => fromFields fs ⟨none, none, none⟩
  | .arr [iv, rv, ev] =>
    match parseIdField iv with
    | .error e => .error e
    | .ok i =>
      match parseResultField rv with
      | .error e => .error e
      | .ok r =>
        match parseErrorField ev with
        | .error e => .error e
        | .ok er => .ok ⟨i, r, er⟩
  | .arr _ => .error "invalid length, expected struct SidecarResponse with 3 elements"
  | _ => .error "invalid type: expected struct SidecarResponse"

/-- One line of text read from the worker's stdout, at the granularity the
bridge observes it: either text that is not valid JSON (carrying the parser's
error description) or text that parses to a JSON value. -/
inductive Line where
  | malformed (desc : String) : Line
  | json (v : Json) : Line

/-- `serde_json::from_str::<SidecarResponse>(&line)` (lib.rs:162): parse the
line and shape-check it. -/
def parseResponse : Line → Except String SidecarResponse
  | .malformed desc => .error desc
  | .json v => responseFromJson v

/-- The request object built by `send_command` (lib.rs:144-148):
`json!({ "id": id, "command": command, "args": args })`. -/
def encodeRequest (id : Nat) (command : String) (args : List Json) : Json :=
  .obj [("id", .num (id : Int)), ("command", .str command), ("args", .arr args)]

/-- Handle to a spawned worker (`std::process::Child`): a process identity plus
whether its stdin/stdout were redirected into pipes.  `start_sidecar`
(lib.rs:85-130) always spawns with both piped (`Stdio::piped()`), so the
`ok_or("No stdin") / ok_or("No stdout")` guards in `send_command` can only fire
on a handle that was not produced that way. -/
structure Child where
  pid : Nat
  stdin_piped : Bool
  stdout_piped : Bool
deriving DecidableEq

/-- `SidecarState` (lib.rs:55-58): the shared worker-process slot
(`Arc<Mutex<Option<Child>>>`) and the atomic `u64` request counter. -/
structure SidecarState where
  process : Option Child
  request_id : Nat

/-- `SidecarState::new` (lib.rs:60-67): empty slot, counter starts at 1. -/
def SidecarState.new : SidecarState :=
  { process := none, request_id := 1 }

/-- The outside world's behaviour for one `send_command` call: the outcome
`start_sidecar` would have if invoked (a fresh handle, or the OS error text),
the outcome of `writeln!` + `flush` on the worker's stdin (`none` = success,
`some msg` = the I/O error text), and the outcome of `read_line` on its stdout
(an I/O error, or the line that was read). -/
structure CallEnv where
  spawn : Except String Child
  write : Option String
  read : Except String Line

/-- What one `send_command` call produced: the returned value or error, the
bridge state afterwards, whether this call spawned a worker process, and the
correlation id it consumed from the counter (`none` if it returned before
`fetch_add`, which happens only on spawn failure). -/
structure CallResult where
  ret : Except String Json
  state : SidecarState
  spawned : Bool
  assigned : Option Nat

/-- The round trip of `send_command` after the worker is known to be running
(lib.rs:140-169): fetch the correlation id (`fetch_add(1)` on a `u64` wraps at
2^64), build the request, write it to stdin, read one line from stdout, parse
it, and fail with the `error` field if present, otherwise succeed with the
`result` field (`Value::Null` if absent). -/
def sendRoundTrip (env : CallEnv) (st : SidecarState) (c : Child)
    (spawned : Bool) (command : String) (args : List Json) : CallResult :=
  let id := st.request_id
  let st' : SidecarState := { st with request_id := (st.request_id + 1) % u64Mod }
  let _request := encodeRequest id command args
  if c.stdin_piped = false then
    { ret := .error "No stdin", state := st', spawned := spawned, assigned := some id }
  else
    match env.write with
    | some e => { ret := .error e, state := st', spawned := spawned, assigned := some id }
    | none =>
      if c.stdout_piped = false then
        { ret := .error "No stdout", state := st', spawned := spawned, assigned := some id }
      else
        match env.read with
        | .error e => { ret := .error e, state := st', spawned := spawned, assigned := some id }
        | .ok line =>
          match parseResponse line with
          | .error e =>
            { ret := .error ("Failed to parse response: " ++ e), state := st',
              spawned := spawned, assigned := some id }
          | .ok resp =>
            match resp.error with
            | some err =>
              { ret := .error err, state := st', spawned := spawned, assigned := some id }
            | none =>
              { ret := .ok (resp.result.getD Json.null), state := st',
                spawned := spawned, assigned := some id }

/-- `send_command` (lib.rs:132-170).  The `Mutex` on the process slot is held
for the whole round trip, so concurrent invocations execute as some sequential
interleaving of whole calls; one call is this function.  If the slot is empty
the worker is spawned first (`start_sidecar()?` — on spawn failure the call
returns before the slot is assigned and before the counter is touched); if a
handle already exists it is used as is. -/
def send_command (env : CallEnv) (st : SidecarState) (command : String)
    (args : List Json) : CallResult :=
  match st.process with
  | none =>
    match env.spawn with
    | .error e => { ret := .error e, state := st, spawned := false, assigned := none }
    | .ok c => sendRoundTrip env { st with process := some c } c true command args
  | some c => sendRoundTrip env st c false command args

/-- A call script: environment, command and arguments of each successive call. -/
abbrev Call := CallEnv × String × List Json

/-- Run a sequence of `send_command` calls, threading the bridge state. -/
def runCalls : List Call → SidecarState → SidecarState
  | [], st => st
  | (env, cmd, args) :: rest, st =>
    runCalls rest (send_command env st cmd args).state

/-- How many of the calls in the script spawned a worker process. -/
def spawnCount : List Call → SidecarState → Nat
  | [], _ => 0
  | (env, cmd, args) :: rest, st =>
    let r := send_command env st cmd args
    (if r.spawned then 1 else 0) + spawnCount rest r.state

/-- The correlation ids assigned to the successive calls of the script
(calls that fail before `fetch_add` assign none). -/
def assignedIds : List Call → SidecarState → List Nat
  | [], _ => []
  | (env, cmd, args) :: rest, st =>
    let r := send_command env st cmd args
    r.assigned.toList ++ assignedIds rest r.state

/-! ## Record store (`database.rs`)

The database is embedded relationally: the contents of its four tables, each a
list of rows in table order.  SQLite `REAL` columns are carried as `Float`
(never computed with), `TEXT` as `String`, `INTEGER` as `Int`/`Bool` matching
the Rust field types.  `ORDER BY` on a `TEXT` column under the default BINARY
collation compares UTF-8 bytes, which coincides with Lean's code-point
lexicographic order on `String`. -/

/-- `DbProfile` (database.rs:8-145): one row of the `profiles` table. -/
structure DbProfile where
  id : String
  name : String
  browser_type : String
  browser_version : String
  user_agent : String
  os : String
  platform : String
  viewport_width : Int
  viewport_height : Int
  screen_width : Int
  screen_height : Int
  color_depth : Int
  pixel_ratio : Float
  timezone_mode : String
  timezone : String
  locale_mode : String
  locale : String
  language : String
  country : String
  cpu_cores : Int
  device_memory : Int
  max_touch_points : Int
  webgl_image_mode : String
  webgl_metadata_mode : String
  webgl_vendor : String
  webgl_renderer : String
  canvas_noise : Float
  audio_noise : Float
  client_rects_noise : Float
  webrtc_mode : String
  webrtc_public_ip : String
  geo_mode : String
  geo_latitude : Float
  geo_longitude : Float
  geo_accuracy : Float
  media_devices_mode : String
  fake_cameras : Int
  fake_microphones : Int
  fake_speakers : Int
  do_not_track : Bool
  block_webrtc : Bool
  block_canvas : Bool
  block_audio_context : Bool
  block_images : Bool
  block_media : Bool
  fonts : String
  plugins : String
  speech_voices : String
  proxy_id : String
  group_id : String
  platform_tags : String
  notes : String
  bookmarks : String
  status : String
  last_used_at : String
  last_ip : String
  created_at : String
  updated_at : String

/-- `DbProxy` (database.rs:147-168): one row of the `proxies` table. -/
structure DbProxy where
  id : String
  name : String
  proxy_type : String
  host : String
  port : Int
  username : String
  password : String
  country : String
  city : String
  status : String
  last_tested_at : String
  last_ip : String
  created_at : String
  updated_at : String

/-- `DbWorkflow` (database.rs:170-187): one row of the `workflows` table. -/
structure DbWorkflow where
  id : String
  name : String
  description : String
  blocks : String
  «variables» : String
  settings : String
  status : String
  last_run_at : String
  run_count : Int
  created_at : String
  updated_at : String

/-- `DbGroup` (database.rs:189-199): one row of the `groups` table. -/
structure DbGroup where
  id : String
  name : String
  color : String
  description : String
  created_at : String
  updated_at : String

/-- The record store (`Database`, database.rs:203-205), as the contents of its
four tables. -/
structure Database where
  profiles : List DbProfile
  proxies : List DbProxy
  workflows : List DbWorkflow
  groups : List DbGroup

/-- `Database::get_profiles` (database.rs:409-495):
`SELECT ... FROM profiles ORDER BY created_at DESC`. -/
def Database.get_profiles (db : Database) : List DbProfile :=
  List.insertionSort (fun a b => b.created_at ≤ a.created_at) db.profiles

/-- `Database::get_proxies` (database.rs:577-606):
`SELECT ... FROM proxies ORDER BY created_at DESC`. -/
def Database.get_proxies (db : Database) : List DbProxy :=
  List.insertionSort (fun a b => b.created_at ≤ a.created_at) db.proxies

/-- `Database::get_workflows` (database.rs:660-686):
`SELECT ... FROM workflows ORDER BY created_at DESC`. -/
def Database.get_workflows (db : Database) : List DbWorkflow :=
  List.insertionSort (fun a b => b.created_at ≤ a.created_at) db.workflows

/-- `Database::get_groups` (database.rs:735-755):
`SELECT ... FROM groups ORDER BY name ASC`. -/
def Database.get_groups (db : Database) : List DbGroup :=
  List.insertionSort (fun a b => a.name ≤ b.name) db.groups

/-- `Database::delete_group` (database.rs:769-777):
`UPDATE profiles SET group_id = '' WHERE group_id = ?1` followed by
`DELETE FROM groups WHERE id = ?1`. -/
def Database.delete_group (db : Database) (id : String) : Database :=
  { db with
    profiles := db.profiles.map
      (fun p => if p.group_id = id then { p with group_id := "" } else p),
    groups := db.groups.filter (fun g => g.id != id) }

/-- A profile with its group reference cleared; two profiles `p`, `q` satisfy
`clearGroup p = clearGroup q` exactly when they agree on every field other
than `group_id`. -/
def clearGroup (p : DbProfile) : DbProfile :=
  { p with group_id := "" }

/-! ## Lemmas about the bridge -/

/-- Whatever the I/O outcomes, one round trip leaves the process slot as it
was, advances the counter by one (mod 2^64), reports the `spawned` flag it was
given, and consumes exactly the counter's prior value as the request id. -/
theorem sendRoundTrip_spec (env : CallEnv) (st : SidecarState) (c : Child)
    (sp : Bool) (cmd : String) (args : List Json) :
    (sendRoundTrip env st c sp cmd args).state.process = st.process ∧
    (sendRoundTrip env st c sp cmd args).state.request_id
      = (st.request_id + 1) % u64Mod ∧
    (sendRoundTrip env st c sp cmd args).spawned = sp ∧
    (sendRoundTrip env st c sp cmd args).assigned = some st.request_id := by
  unfold sendRoundTrip
  dsimp only
  repeat' split
  all_goals exact ⟨rfl, rfl, rfl, rfl⟩

/-- Unfolding equation for `spawnCount` on a cons cell. -/
theorem spawnCount_cons (env : CallEnv) (cmd : String) (args : List Json)
    (tl : List Call) (st : SidecarState) :
    spawnCount ((env, cmd, args) :: tl) st
      = (if (send_command env st cmd args).spawned then 1 else 0)
        + spawnCount tl (send_command env st cmd args).state := rfl

/-- Unfolding equation for `assignedIds` on a cons cell. -/
theorem assignedIds_cons (env : CallEnv) (cmd : String) (args : List Json)
    (tl : List Call) (st : SidecarState) :
    assignedIds ((env, cmd, args) :: tl) st
      = (send_command env st cmd args).assigned.toList
        ++ assignedIds tl (send_command env st cmd args).state := rfl

/-- A call made while a handle is in the slot never spawns and keeps that
same handle in the slot. -/
theorem send_command_of_running (env : CallEnv) (st : SidecarState) (c : Child)
    (cmd : String) (args : List Json) (h : st.process = some c) :
    (send_command env st cmd args).spawned = false ∧
    (send_command env st cmd args).state.process = some c := by
  unfold send_command
  rw [h]
  have hs := sendRoundTrip_spec env st c false cmd args
  exact ⟨hs.2.2.1, hs.1.trans h⟩

/-- Once a handle occupies the slot, an arbitrary further call script spawns
no process at all. -/
theorem spawnCount_of_running (calls : List Call) (st : SidecarState) (c : Child)
    (h : st.process = some c) : spawnCount calls st = 0 := by
  induction calls generalizing st with
  | nil => rfl
  | cons hd tl ih =>
    obtain ⟨env, cmd, args⟩ := hd
    have h1 := send_command_of_running env st c cmd args h
    rw [spawnCount_cons, h1.1, if_neg (by simp), ih _ h1.2]

/-- C1: a call made while a worker handle already occupies the shared process
slot spawns nothing and leaves that same handle in place; a spawn happens only
on an empty slot, so a nonempty script of calls (sequential, or concurrent —
the `Mutex` serializes them into such a script) starting from the fresh bridge
state spawns exactly one worker process when no spawn fails. -/
theorem send_command_single_spawn
    (env : CallEnv) (st : SidecarState) (c : Child) (cmd : String)
    (args : List Json) (calls : List Call)
    (hrun : st.process = some c)
    (hok : ∀ k ∈ calls, ∃ ch, k.1.spawn = Except.ok ch)
    (hne : calls ≠ []) :
    ((send_command env st cmd args).spawned = false ∧
      (send_command env st cmd args).state.process = some c) ∧
    spawnCount calls SidecarState.new = 1 := by
  refine ⟨send_command_of_running env st c cmd args hrun, ?_⟩
  match calls, hne with
  | (env₀, cmd₀, args₀) :: tl, _ =>
    obtain ⟨c₀, hc₀⟩ := hok (env₀, cmd₀, args₀) (List.mem_cons_self _ _)
    have hfirst : send_command env₀ SidecarState.new cmd₀ args₀
        = sendRoundTrip env₀ { SidecarState.new with process := some c₀ } c₀ true cmd₀ args₀ := by
      unfold send_command
      rw [show SidecarState.new.process = none from rfl, hc₀]
    have hs := sendRoundTrip_spec env₀ { SidecarState.new with process := some c₀ } c₀ true cmd₀ args₀
    have hzero : spawnCount tl (sendRoundTrip env₀
        { SidecarState.new with process := some c₀ } c₀ true cmd₀ args₀).state = 0 :=
      spawnCount_of_running tl _ c₀ hs.1
    rw [spawnCount_cons, hfirst, hs.2.2.1, if_pos rfl, hzero]

/-- Concrete witness data: a worker handle with both pipes, an environment in
which every step succeeds and the worker answers `{}`. -/
def echoChild : Child := ⟨0, true, true⟩

/-- An environment in which spawn, write and read all succeed and the line
read is `{}`. -/
def goodEnv : CallEnv :=
  ⟨Except.ok echoChild, none, Except.ok (Line.json (Json.obj []))⟩

/-- One fully successful `getSessions` call. -/
def goodCall : Call := (goodEnv, "getSessions", [])

/-- Witness for `send_command_single_spawn`: a two-call script spawns once. -/
theorem send_command_single_spawn_witness :
    ((send_command goodEnv ⟨some echoChild, 5⟩ "getSessions" []).spawned = false ∧
      (send_command goodEnv ⟨some echoChild, 5⟩ "getSessions" []).state.process = some echoChild) ∧
    spawnCount [goodCall, goodCall] SidecarState.new = 1 :=
  send_command_single_spawn goodEnv ⟨some echoChild, 5⟩ echoChild "getSessions" []
    [goodCall, goodCall] rfl
    (by intro k hk; simp only [List.mem_cons, List.mem_singleton] at hk
        rcases hk with h | h | h <;> first | (subst h; exact ⟨echoChild, rfl⟩) | exact absurd h (by simp))
    (by simp)

/-- If every call in the script can spawn (so no call returns before
`fetch_add`), the ids handed out are the consecutive counter values reduced
mod 2^64 — independently of any write/read failures and of the slot's
contents: the counter belongs to the bridge state, not to the worker. -/
theorem assignedIds_all_ok (calls : List Call) (st : SidecarState)
    (hok : ∀ k ∈ calls, ∃ ch, k.1.spawn = Except.ok ch)
    (hlt : st.request_id < u64Mod) :
    assignedIds calls st
      = (List.range calls.length).map (fun k => (st.request_id + k) % u64Mod) := by
  induction calls generalizing st with
  | nil => rfl
  | cons hd tl ih =>
    obtain ⟨env, cmd, args⟩ := hd
    have hassigned : (send_command env st cmd args).assigned = some st.request_id ∧
        (send_command env st cmd args).state.request_id = (st.request_id + 1) % u64Mod := by
      unfold send_command
      cases hp : st.process with
      | some c =>
        exact ⟨(sendRoundTrip_spec env st c false cmd args).2.2.2,
          (sendRoundTrip_spec env st c false cmd args).2.1⟩
      | none =>
        obtain ⟨ch, hch⟩ := hok (env, cmd, args) (List.mem_cons_self _ _)
        rw [hch]
        exact ⟨(sendRoundTrip_spec env { st with process := some ch } ch true cmd args).2.2.2,
          (sendRoundTrip_spec env { st with process := some ch } ch true cmd args).2.1⟩
    have ih' := ih (send_command env st cmd args).state
      (fun k hk => hok k (List.mem_cons_of_mem _ hk))
      (by rw [hassigned.2]; exact Nat.mod_lt _ (by norm_num [u64Mod]))
    rw [assignedIds_cons, hassigned.1, ih', hassigned.2]
    have hfun : (fun k => ((st.request_id + 1) % u64Mod + k) % u64Mod)
        = (fun k => (st.request_id + k) % u64Mod) ∘ Nat.succ := by
      funext k
      simp only [Function.comp_apply, Nat.mod_add_mod]
      congr 1
      omega
    rw [hfun, List.length_cons, List.range_succ_eq_map, List.map_cons, List.map_map]
    simp only [Option.toList_some, List.singleton_append]
    congr 1
    exact (Nat.mod_eq_of_lt (by omega)).symm

/-- C2 counterexample: the request counter is a wrapping `u64`
(`fetch_add(1)` wraps at 2^64), so over the lifetime of one `SidecarState`
the ids are not always strictly increasing with no repeats: in a script of
2^64 + 1 calls, the call at position 0 and the call at position 2^64 are both
assigned id 1. -/
theorem send_command_ids_wrap_around :
    (assignedIds (List.replicate (u64Mod + 1) goodCall) SidecarState.new)[0]? = some 1 ∧
    (assignedIds (List.replicate (u64Mod + 1) goodCall) SidecarState.new)[u64Mod]? = some 1 ∧
    (0 : Nat) ≠ u64Mod := by
  have h := assignedIds_all_ok (List.replicate (u64Mod + 1) goodCall) SidecarState.new
    (fun k hk => by rw [List.eq_of_mem_replicate hk]; exact ⟨echoChild, rfl⟩)
    (by norm_num [SidecarState.new, u64Mod])
  rw [h, List.length_replicate]
  refine ⟨?_, ?_, by norm_num [u64Mod]⟩
  · rw [List.getElem?_map, List.getElem?_range (Nat.succ_pos _)]
    show some ((SidecarState.new.request_id + 0) % u64Mod) = some 1
    norm_num [SidecarState.new, u64Mod]
  · rw [List.getElem?_map, List.getElem?_range (Nat.lt_succ_self _)]
    show some ((SidecarState.new.request_id + u64Mod) % u64Mod) = some 1
    rw [show SidecarState.new.request_id = 1 from rfl, Nat.add_mod_right]
    norm_num [u64Mod]

/-- C2 (amended): over the lifetime of one `SidecarState` the correlation ids
assigned to requests start at 1 and are strictly increasing with no repeats
as long as the `u64` counter has not wrapped around (i.e. among the first
2^64 - 1 requests); the counter lives in the bridge state and is unaffected
by worker failures or restarts (the script's write/read outcomes are
arbitrary). -/
theorem send_command_ids_monotone (calls : List Call)
    (hok : ∀ k ∈ calls, ∃ ch, k.1.spawn = Except.ok ch)
    (i j : Nat) (hij : i < j) (hj : j < calls.length) (hwrap : j + 1 < u64Mod) :
    (assignedIds calls SidecarState.new)[i]? = some (i + 1) ∧
    (assignedIds calls SidecarState.new)[j]? = some (j + 1) ∧
    i + 1 < j + 1 := by
  have h := assignedIds_all_ok calls SidecarState.new hok
    (by norm_num [SidecarState.new, u64Mod])
  rw [h]
  refine ⟨?_, ?_, by omega⟩
  · rw [List.getElem?_map, List.getElem?_range (by omega)]
    show some ((SidecarState.new.request_id + i) % u64Mod) = some (i + 1)
    rw [show SidecarState.new.request_id = 1 from rfl, Nat.mod_eq_of_lt (by omega)]
    congr 1
    omega
  · rw [List.getElem?_map, List.getElem?_range (by omega)]
    show some ((SidecarState.new.request_id + j) % u64Mod) = some (j + 1)
    rw [show SidecarState.new.request_id = 1 from rfl, Nat.mod_eq_of_lt (by omega)]
    congr 1
    omega

/-- Witness for `send_command_ids_monotone`: a two-call script is assigned
ids 1 then 2. -/
theorem send_command_ids_monotone_witness :
    (assignedIds [goodCall, goodCall] SidecarState.new)[0]? = some 1 ∧
    (assignedIds [goodCall, goodCall] SidecarState.new)[1]? = some 2 ∧
    0 + 1 < 1 + 1 :=
  send_command_ids_monotone [goodCall, goodCall]
    (by intro k hk
        simp only [List.mem_cons, List.not_mem_nil, or_false] at hk
        rcases hk with rfl | rfl <;> exact ⟨echoChild, rfl⟩)
    0 1 (by omega) (by simp) (by norm_num [u64Mod])

/-- C3: whenever the line read from the worker decodes to a response whose
`error` field is present and non-empty, `send_command` fails and the error
returned to the caller is exactly that field's text. -/
theorem send_command_worker_error
    (env : CallEnv) (st : SidecarState) (c : Child) (cmd : String)
    (args : List Json) (line : Line) (resp : SidecarResponse) (e : String)
    (hc : st.process = some c) (hin : c.stdin_piped = true)
    (hout : c.stdout_piped = true) (hw : env.write = none)
    (hr : env.read = Except.ok line) (hp : parseResponse line = Except.ok resp)
    (he : resp.error = some e) (hne : e ≠ "") :
    (send_command env st cmd args).ret = Except.error e := by
  unfold send_command
  rw [hc]
  unfold sendRoundTrip
  simp only [hin, hw, hout, hr, hp, he, Bool.true_eq_false, if_false]

/-- Witness for `send_command_worker_error`: the scenario of §8 — the worker
answers a call with the line `{"id":2,"error":"session not found"}` and the
call fails with exactly the message `session not found`. -/
theorem send_command_worker_error_witness :
    (send_command
      ⟨Except.ok echoChild, none,
        Except.ok (Line.json (Json.obj
          [("id", Json.num 2), ("error", Json.str "session not found")]))⟩
      ⟨some echoChild, 2⟩ "closeSession" [Json.str "s1"]).ret
      = Except.error "session not found" :=
  send_command_worker_error _ _ echoChild _ _
    (Line.json (Json.obj [("id", Json.num 2), ("error", Json.str "session not found")]))
    ⟨some 2, none, some "session not found"⟩ "session not found"
    rfl rfl rfl rfl rfl rfl rfl (by decide)

/-- C4: whenever the line read from the worker decodes successfully with no
`error` field, `send_command` succeeds and returns the `result` field, with
`result` taken to be `Null` when absent. -/
theorem send_command_success
    (env : CallEnv) (st : SidecarState) (c : Child) (cmd : String)
    (args : List Json) (line : Line) (resp : SidecarResponse)
    (hc : st.process = some c) (hin : c.stdin_piped = true)
    (hout : c.stdout_piped = true) (hw : env.write = none)
    (hr : env.read = Except.ok line) (hp : parseResponse line = Except.ok resp)
    (he : resp.error = none) :
    (send_command env st cmd args).ret = Except.ok (resp.result.getD Json.null) := by
  unfold send_command
  rw [hc]
  unfold sendRoundTrip
  simp only [hin, hw, hout, hr, hp, he, Bool.true_eq_false, if_false]

/-- Witness for `send_command_success`: the bare line `{}` is a successful
response (returning `Null`), and the §8 success scenario
`{"id":1,"result":[]}` returns the empty array. -/
theorem send_command_success_witness :
    (send_command ⟨Except.ok echoChild, none, Except.ok (Line.json (Json.obj []))⟩
      ⟨some echoChild, 1⟩ "getSessions" []).ret = Except.ok Json.null ∧
    (send_command
      ⟨Except.ok echoChild, none,
        Except.ok (Line.json (Json.obj [("id", Json.num 1), ("result", Json.arr [])]))⟩
      ⟨some echoChild, 1⟩ "getSessions" []).ret = Except.ok (Json.arr []) :=
  ⟨send_command_success _ _ echoChild _ _ (Line.json (Json.obj []))
      ⟨none, none, none⟩ rfl rfl rfl rfl rfl rfl rfl,
    send_command_success _ _ echoChild _ _
      (Line.json (Json.obj [("id", Json.num 1), ("result", Json.arr [])]))
      ⟨some 1, some (Json.arr []), none⟩ rfl rfl rfl rfl rfl rfl rfl⟩

/-- C5 counterexample: when the write against the worker's pipes fails with a
broken pipe, `send_command` does fail with that error, but the stored handle
is NOT cleared — the slot still holds the dead handle and the next call
reuses it instead of attempting a fresh spawn (its `spawned` flag is `false`
even though a fresh spawn was available in its environment). -/
theorem send_command_transport_failure_keeps_stale_handle :
    (send_command ⟨Except.ok ⟨7, true, true⟩, some "Broken pipe (os error 32)",
        Except.error "Broken pipe (os error 32)"⟩
      SidecarState.new "getSessions" []).ret
      = Except.error "Broken pipe (os error 32)" ∧
    (send_command ⟨Except.ok ⟨7, true, true⟩, some "Broken pipe (os error 32)",
        Except.error "Broken pipe (os error 32)"⟩
      SidecarState.new "getSessions" []).state.process = some ⟨7, true, true⟩ ∧
    (send_command ⟨Except.ok ⟨8, true, true⟩, none, Except.ok (Line.json (Json.obj []))⟩
      (send_command ⟨Except.ok ⟨7, true, true⟩, some "Broken pipe (os error 32)",
          Except.error "Broken pipe (os error 32)"⟩
        SidecarState.new "getSessions" []).state "getSessions" []).spawned = false :=
  ⟨rfl, rfl, rfl⟩

/-- C5 (amended): when the write or the read against the worker's pipes fails,
`send_command` fails with exactly that I/O error text, but the stored worker
handle is NOT cleared: the slot keeps the same handle, and the next call
reuses the stale handle rather than attempting a fresh spawn. -/
theorem send_command_transport_failure
    (env env' : CallEnv) (st : SidecarState) (c : Child) (cmd cmd' : String)
    (args args' : List Json) (e : String)
    (hc : st.process = some c) (hin : c.stdin_piped = true)
    (hfail : env.write = some e ∨
      (env.write = none ∧ c.stdout_piped = true ∧ env.read = Except.error e)) :
    (send_command env st cmd args).ret = Except.error e ∧
    (send_command env st cmd args).state.process = some c ∧
    (send_command env' (send_command env st cmd args).state cmd' args').spawned
      = false := by
  have hret : (send_command env st cmd args).ret = Except.error e := by
    unfold send_command
    rw [hc]
    unfold sendRoundTrip
    rcases hfail with hw | ⟨hw, hout, hr⟩
    · simp only [hin, hw, Bool.true_eq_false, if_false]
    · simp only [hin, hw, hout, hr, Bool.true_eq_false, if_false]
  have hproc : (send_command env st cmd args).state.process = some c :=
    (send_command_of_running env st c cmd args hc).2
  exact ⟨hret, hproc,
    (send_command_of_running env' _ c cmd' args' hproc).1⟩

/-- Witness for `send_command_transport_failure`: a broken-pipe write failure
surfaces as that error, the handle stays in the slot, the next call does not
spawn. -/
theorem send_command_transport_failure_witness :
    (send_command ⟨Except.error "unused", some "Broken pipe (os error 32)",
        Except.error "unused"⟩
      ⟨some echoChild, 3⟩ "navigate" [Json.str "s1", Json.str "http:u"]).ret
      = Except.error "Broken pipe (os error 32)" ∧
    (send_command ⟨Except.error "unused", some "Broken pipe (os error 32)",
        Except.error "unused"⟩
      ⟨some echoChild, 3⟩ "navigate" [Json.str "s1", Json.str "http:u"]).state.process
      = some echoChild ∧
    (send_command goodEnv
      (send_command ⟨Except.error "unused", some "Broken pipe (os error 32)",
          Except.error "unused"⟩
        ⟨some echoChild, 3⟩ "navigate" [Json.str "s1", Json.str "http:u"]).state
      "getSessions" []).spawned = false :=
  send_command_transport_failure _ goodEnv _ echoChild _ _ _ _
    "Broken pipe (os error 32)" rfl rfl (Or.inl rfl)

/-- First-occurrence lookup of a key in a JSON object's field list. -/
def lookupField (k : String) : List (String × Json) → Option Json
  | [] => none
  | (k', v) :: rest => if k' = k then some v else lookupField k rest

/-- Modelled from the spec: the worker's side of the wire protocol — the
sidecar process (`sidecar/index.js`, not under `src/`) parses each request
line `{ "id": <u64>, "command": "<string>", "args": [ <value>, ... ] }` back
into its id, command and argument sequence (spec §6). -/
def decodeRequest : Json → Option (Nat × String × List Json)
  | .obj fs =>
    match lookupField "id" fs, lookupField "command" fs, lookupField "args" fs with
    | some (.num n), some (.str cmd), some (.arr xs) =>
      if 0 ≤ n ∧ n < (u64Mod : Int) then some (n.toNat, cmd, xs) else none
    | _, _, _ => none
  | _ => none

/-- C6: decoding the request line produced by `send_command`'s encoding
(`json!({"id": id, "command": command, "args": args})`) reproduces the id,
the command, and the args exactly, for any `u64` id and any argument
sequence, including the empty one and nested structures. -/
theorem request_roundtrip (id : Nat) (cmd : String) (args : List Json)
    (h : id < u64Mod) :
    decodeRequest (encodeRequest id cmd args) = some (id, cmd, args) := by
  unfold encodeRequest decodeRequest
  dsimp only
  have h1 : lookupField "id" [("id", Json.num (id : Int)), ("command", Json.str cmd),
      ("args", Json.arr args)] = some (Json.num (id : Int)) := by
    simp [lookupField]
  have h2 : lookupField "command" [("id", Json.num (id : Int)), ("command", Json.str cmd),
      ("args", Json.arr args)] = some (Json.str cmd) := by
    simp [lookupField]
  have h3 : lookupField "args" [("id", Json.num (id : Int)), ("command", Json.str cmd),
      ("args", Json.arr args)] = some (Json.arr args) := by
    simp [lookupField]
  rw [h1, h2, h3]
  dsimp only
  rw [if_pos ⟨Int.natCast_nonneg id, by exact_mod_cast h⟩, Int.toNat_natCast]

/-- Witness for `request_roundtrip`: a `getSessions` request with id 1 and no
arguments, and a request with nested structured arguments, both survive the
round trip. -/
theorem request_roundtrip_witness :
    decodeRequest (encodeRequest 1 "getSessions" []) = some (1, "getSessions", []) ∧
    decodeRequest (encodeRequest 2 "createSession"
        [Json.obj [("name", Json.str "p"), ("viewportWidth", Json.num 1920)],
         Json.arr [Json.null, Json.bool true]])
      = some (2, "createSession",
        [Json.obj [("name", Json.str "p"), ("viewportWidth", Json.num 1920)],
         Json.arr [Json.null, Json.bool true]]) :=
  ⟨request_roundtrip 1 "getSessions" [] (by norm_num [u64Mod]),
    request_roundtrip 2 "createSession" _ (by norm_num [u64Mod])⟩

/-- C8: the outcome of `send_command` does not depend on the `id` field of the
response line: two calls whose decoded responses agree on `result` and
`error` — their `id` fields being arbitrary (present, absent, equal to or
different from the request's id) — return the same value or error.  No
request/response id mismatch is ever detected or reported. -/
theorem send_command_ignores_response_id
    (env₁ env₂ : CallEnv) (st : SidecarState) (c : Child) (cmd : String)
    (args : List Json) (line₁ line₂ : Line) (r₁ r₂ : SidecarResponse)
    (hc : st.process = some c) (hin : c.stdin_piped = true)
    (hout : c.stdout_piped = true)
    (hw₁ : env₁.write = none) (hr₁ : env₁.read = Except.ok line₁)
    (hp₁ : parseResponse line₁ = Except.ok r₁)
    (hw₂ : env₂.write = none) (hr₂ : env₂.read = Except.ok line₂)
    (hp₂ : parseResponse line₂ = Except.ok r₂)
    (hres : r₁.result = r₂.result) (herr : r₁.error = r₂.error) :
    (send_command env₁ st cmd args).ret = (send_command env₂ st cmd args).ret := by
  unfold send_command
  rw [hc]
  unfold sendRoundTrip
  simp only [hin, hout, hw₁, hr₁, hp₁, hw₂, hr₂, hp₂, Bool.true_eq_false, if_false]
  rw [herr, hres]

/-- Witness for `send_command_ignores_response_id`: the responses
`{"id":1,"result":[]}` and `{"id":99,"result":[]}` — ids differing and
neither checked against the request — give the same outcome. -/
theorem send_command_ignores_response_id_witness :
    (send_command
      ⟨Except.ok echoChild, none,
        Except.ok (Line.json (Json.obj [("id", Json.num 1), ("result", Json.arr [])]))⟩
      ⟨some echoChild, 1⟩ "getSessions" []).ret
    = (send_command
      ⟨Except.ok echoChild, none,
        Except.ok (Line.json (Json.obj [("id", Json.num 99), ("result", Json.arr [])]))⟩
      ⟨some echoChild, 1⟩ "getSessions" []).ret :=
  send_command_ignores_response_id _ _ _ echoChild _ _
    (Line.json (Json.obj [("id", Json.num 1), ("result", Json.arr [])]))
    (Line.json (Json.obj [("id", Json.num 99), ("result", Json.arr [])]))
    ⟨some 1, some (Json.arr []), none⟩ ⟨some 99, some (Json.arr []), none⟩
    rfl rfl rfl rfl rfl rfl rfl rfl rfl rfl rfl

/-- Whether a JSON value is acceptable for the `id: Option<u64>` field. -/
def idWellTyped : Json → Bool
  | .null => true
  | .num n => decide (0 ≤ n ∧ n < (u64Mod : Int))
  | _ => false

/-- Whether a JSON value is acceptable for the `error: Option<String>` field. -/
def errWellTyped : Json → Bool
  | .null => true
  | .str _ => true
  | _ => false

/-- Some occurrence of the `id` field carries an ill-typed value. -/
def badIdField (fs : List (String × Json)) : Bool :=
  fs.any (fun kv => kv.1 == "id" && !(idWellTyped kv.2))

/-- Some occurrence of the `error` field carries an ill-typed value. -/
def badErrField (fs : List (String × Json)) : Bool :=
  fs.any (fun kv => kv.1 == "error" && !(errWellTyped kv.2))

/-- How many times key `k` occurs among the fields. -/
def keyCount (k : String) (fs : List (String × Json)) : Nat :=
  (fs.filter (fun kv => kv.1 == k)).length

/-- The object shapes serde tolerates for `SidecarResponse`: each of the three
known fields occurs at most once and well-typed; missing fields and unknown
extra fields are unconstrained. -/
def shapeOk (fs : List (String × Json)) : Bool :=
  decide (keyCount "id" fs ≤ 1) && decide (keyCount "result" fs ≤ 1)
    && decide (keyCount "error" fs ≤ 1) && !(badIdField fs) && !(badErrField fs)

/-- Whether a JSON value is an object. -/
def Json.isObj : Json → Bool
  | .obj _ => true
  | _ => false

/-- Whether a JSON value is an array. -/
def Json.isArr : Json → Bool
  | .arr _ => true
  | _ => false

theorem parseIdField_of_bad (v : Json) (h : idWellTyped v = false) :
    parseIdField v = Except.error "invalid type: expected u64 for field id" := by
  cases v <;> simp_all [idWellTyped, parseIdField]

theorem parseIdField_of_good (v : Json) (h : idWellTyped v = true) :
    ∃ x, parseIdField v = Except.ok x := by
  cases v <;> simp_all [idWellTyped, parseIdField]

theorem parseErrorField_of_bad (v : Json) (h : errWellTyped v = false) :
    parseErrorField v = Except.error "invalid type: expected string for field error" := by
  cases v <;> simp_all [errWellTyped, parseErrorField]

theorem parseErrorField_of_good (v : Json) (h : errWellTyped v = true) :
    ∃ x, parseErrorField v = Except.ok x := by
  cases v <;> simp_all [errWellTyped, parseErrorField]

theorem parseResultField_ok (v : Json) : ∃ x, parseResultField v = Except.ok x := by
  cases v <;> exact ⟨_, rfl⟩

theorem keyCount_cons (key k : String) (v : Json) (tl : List (String × Json)) :
    keyCount key ((k, v) :: tl)
      = (if k == key then 1 else 0) + keyCount key tl := by
  simp only [keyCount, List.filter_cons]
  cases h : (k == key) <;> simp [h, Nat.add_comm]

/-- An ill-typed `id` field anywhere in the object makes deserialization fail
(either on the type mismatch itself or on an earlier duplicate). -/
theorem fromFields_err_of_badId (fs : List (String × Json)) (acc : RespAcc)
    (h : badIdField fs = true) : (fromFields fs acc).isOk = false := by
  induction fs generalizing acc with
  | nil => simp [badIdField] at h
  | cons hd tl ih =>
    obtain ⟨k, v⟩ := hd
    rw [badIdField, List.any_cons] at h
    unfold fromFields
    by_cases hk : k = "id"
    · subst hk
      rw [if_pos rfl]
      cases hacc : acc.idF with
      | some _ => rfl
      | none =>
        cases hW : idWellTyped v with
        | false =>
          rw [parseIdField_of_bad v hW]
          rfl
        | true =>
          obtain ⟨x, hx⟩ := parseIdField_of_good v hW
          rw [hx]
          refine ih { acc with idF := some x } ?_
          simp only [beq_self_eq_true, Bool.true_and, hW, Bool.not_true,
            Bool.false_or] at h
          exact h
    · have hkb : (k == "id") = false := beq_eq_false_iff_ne.mpr hk
      simp only [hkb, Bool.false_and, Bool.false_or] at h
      rw [if_neg hk]
      by_cases hr : k = "result"
      · rw [if_pos hr]
        cases acc.resF with
        | some _ => rfl
        | none =>
          obtain ⟨x, hx⟩ := parseResultField_ok v
          rw [hx]
          exact ih _ h
      · rw [if_neg hr]
        by_cases he : k = "error"
        · rw [if_pos he]
          cases acc.errF with
          | some _ => rfl
          | none =>
            cases hW : errWellTyped v with
            | false =>
              rw [parseErrorField_of_bad v hW]
              rfl
            | true =>
              obtain ⟨x, hx⟩ := parseErrorField_of_good v hW
              rw [hx]
              exact ih _ h
        · rw [if_neg he]
          exact ih _ h

/-- An ill-typed `error` field anywhere in the object makes deserialization
fail. -/
theorem fromFields_err_of_badErr (fs : List (String × Json)) (acc : RespAcc)
    (h : badErrField fs = true) : (fromFields fs acc).isOk = false := by
  induction fs generalizing acc with
  | nil => simp [badErrField] at h
  | cons hd tl ih =>
    obtain ⟨k, v⟩ := hd
    rw [badErrField, List.any_cons] at h
    unfold fromFields
    by_cases he : k = "error"
    · subst he
      rw [if_neg (by decide), if_neg (by decide), if_pos rfl]
      cases hacc : acc.errF with
      | some _ => rfl
      | none =>
        cases hW : errWellTyped v with
        | false =>
          rw [parseErrorField_of_bad v hW]
          rfl
        | true =>
          obtain ⟨x, hx⟩ := parseErrorField_of_good v hW
          rw [hx]
          refine ih { acc with errF := some x } ?_
          simp only [beq_self_eq_true, Bool.true_and, hW, Bool.not_true,
            Bool.false_or] at h
          exact h
    · have hkb : (k == "error") = false := beq_eq_false_iff_ne.mpr he
      simp only [hkb, Bool.false_and, Bool.false_or] at h
      by_cases hk : k = "id"
      · rw [if_pos hk]
        cases acc.idF with
        | some _ => rfl
        | none =>
          cases parseIdField v with
          | error e => rfl
          | ok x => exact ih _ h
      · rw [if_neg hk]
        by_cases hr : k = "result"
        · rw [if_pos hr]
          cases acc.resF with
          | some _ => rfl
          | none =>
            obtain ⟨x, hx⟩ := parseResultField_ok v
            rw [hx]
            exact ih _ h
        · rw [if_neg hr, if_neg he]
          exact ih _ h

/-- Tolerance: if each of the three known fields occurs at most once (and,
when the accumulator already holds one, not at all) and every occurrence is
well-typed, deserialization succeeds — unknown extra fields and missing
fields are fine. -/
theorem fromFields_ok (fs : List (String × Json)) (acc : RespAcc)
    (hid0 : acc.idF.isSome = true → keyCount "id" fs = 0)
    (hid1 : keyCount "id" fs ≤ 1)
    (hres0 : acc.resF.isSome = true → keyCount "result" fs = 0)
    (hres1 : keyCount "result" fs ≤ 1)
    (herr0 : acc.errF.isSome = true → keyCount "error" fs = 0)
    (herr1 : keyCount "error" fs ≤ 1)
    (hbid : badIdField fs = false) (hberr : badErrField fs = false) :
    (fromFields fs acc).isOk = true := by
  induction fs generalizing acc with
  | nil => rfl
  | cons hd tl ih =>
    obtain ⟨k, v⟩ := hd
    rw [badIdField, List.any_cons, Bool.or_eq_false_iff] at hbid
    rw [badErrField, List.any_cons, Bool.or_eq_false_iff] at hberr
    rw [keyCount_cons] at hid0 hid1
    rw [keyCount_cons] at hres0 hres1
    rw [keyCount_cons] at herr0 herr1
    unfold fromFields
    by_cases hk : k = "id"
    · subst hk
      rw [if_pos rfl]
      simp only [beq_self_eq_true, if_pos] at hid0 hid1
      cases hacc : acc.idF with
      | some y =>
        exact absurd (hid0 (by rw [hacc]; rfl)) (by omega)
      | none =>
        have hW : idWellTyped v = true := by
          have := hbid.1
          simp only [beq_self_eq_true, Bool.true_and, Bool.not_eq_false'] at this
          exact this
        obtain ⟨x, hx⟩ := parseIdField_of_good v hW
        rw [hx]
        refine ih { acc with idF := some x } (fun _ => by omega) (by omega)
          ?_ ?_ ?_ ?_ hbid.2 hberr.2
        · intro hs
          have := hres0 hs
          omega
        · omega
        · intro hs
          have := herr0 hs
          omega
        · omega
    · have hkb : (k == "id") = false := beq_eq_false_iff_ne.mpr hk
      rw [if_neg hk]
      simp only [hkb, if_neg, Bool.false_eq_true, ite_false, Nat.zero_add] at hid0 hid1
      by_cases hr : k = "result"
      · subst hr
        rw [if_pos rfl]
        simp only [beq_self_eq_true, if_pos] at hres0 hres1
        cases hacc : acc.resF with
        | some y =>
          exact absurd (hres0 (by rw [hacc]; rfl)) (by omega)
        | none =>
          obtain ⟨x, hx⟩ := parseResultField_ok v
          rw [hx]
          refine ih { acc with resF := some x } ?_ (by omega)
            (fun _ => by omega) (by omega) ?_ ?_ hbid.2 hberr.2
          · intro hs
            have := hid0 hs
            omega
          · intro hs
            have := herr0 hs
            omega
          · omega
      · have hrb : (k == "result") = false := beq_eq_false_iff_ne.mpr hr
        rw [if_neg hr]
        simp only [hrb, Bool.false_eq_true, ite_false, Nat.zero_add] at hres0 hres1
        by_cases he : k = "error"
        · subst he
          rw [if_pos rfl]
          simp only [beq_self_eq_true, if_pos] at herr0 herr1
          cases hacc : acc.errF with
          | some y =>
            exact absurd (herr0 (by rw [hacc]; rfl)) (by omega)
          | none =>
            have hW : errWellTyped v = true := by
              have := hberr.1
              simp only [beq_self_eq_true, Bool.true_and, Bool.not_eq_false'] at this
              exact this
            obtain ⟨x, hx⟩ := parseErrorField_of_good v hW
            rw [hx]
            refine ih { acc with errF := some x } ?_ (by omega) ?_ (by omega)
              (fun _ => by omega) (by omega) hbid.2 hberr.2
            · intro hs
              have := hid0 hs
              omega
            · intro hs
              have := hres0 hs
              omega
        · have heb : (k == "error") = false := beq_eq_false_iff_ne.mpr he
          rw [if_neg he]
          simp only [heb, Bool.false_eq_true, ite_false, Nat.zero_add] at herr0 herr1
          exact ih acc hid0 hid1 hres0 hres1 herr0 herr1 hbid.2 hberr.2

/-- C7: a line that is not valid JSON, or whose decode fails, makes
`send_command` return the `Failed to parse response: …` error; a value that
is neither an object nor an array is rejected; on the object form a type
mismatch on the `id` or `error` field is rejected (`result` accepts any
value, so it admits no mismatch), while objects in which each of the three
fields occurs at most once, well-typed — fields may be missing, and extra
unknown fields are allowed — decode successfully; on serde's positional
array form, a length other than three or a type mismatch at the `id` or
`error` position is rejected, and a well-typed three-element array decodes
successfully. -/
theorem send_command_malformed_response :
    (∀ (env : CallEnv) (st : SidecarState) (c : Child) (cmd : String)
        (args : List Json) (line : Line) (e : String),
      st.process = some c → c.stdin_piped = true → c.stdout_piped = true →
      env.write = none → env.read = Except.ok line →
      parseResponse line = Except.error e →
      (send_command env st cmd args).ret
        = Except.error ("Failed to parse response: " ++ e)) ∧
    (∀ v : Json, v.isObj = false → v.isArr = false →
      (responseFromJson v).isOk = false) ∧
    (∀ fs, badIdField fs = true → (responseFromJson (Json.obj fs)).isOk = false) ∧
    (∀ fs, badErrField fs = true → (responseFromJson (Json.obj fs)).isOk = false) ∧
    (∀ fs, shapeOk fs = true → (responseFromJson (Json.obj fs)).isOk = true) ∧
    (∀ xs : List Json, xs.length ≠ 3 →
      (responseFromJson (Json.arr xs)).isOk = false) ∧
    (∀ iv rv ev : Json, idWellTyped iv = false ∨ errWellTyped ev = false →
      (responseFromJson (Json.arr [iv, rv, ev])).isOk = false) ∧
    (∀ iv rv ev : Json, idWellTyped iv = true → errWellTyped ev = true →
      (responseFromJson (Json.arr [iv, rv, ev])).isOk = true) := by
  refine ⟨?_, ?_, ?_, ?_, ?_, ?_, ?_, ?_⟩
  · intro env st c cmd args line e hc hin hout hw hr hp
    unfold send_command
    rw [hc]
    unfold sendRoundTrip
    simp only [hin, hout, hw, hr, hp, Bool.true_eq_false, if_false]
  · intro v hobj harr
    cases v <;>
      simp_all [Json.isObj, Json.isArr, responseFromJson, Except.isOk, Except.toBool]
  · intro fs h
    exact fromFields_err_of_badId fs ⟨none, none, none⟩ h
  · intro fs h
    exact fromFields_err_of_badErr fs ⟨none, none, none⟩ h
  · intro fs h
    simp only [shapeOk, Bool.and_eq_true, Bool.not_eq_true', decide_eq_true_eq] at h
    exact fromFields_ok fs ⟨none, none, none⟩ (by intro hs; cases hs) h.1.1.1.1
      (by intro hs; cases hs) h.1.1.1.2 (by intro hs; cases hs) h.1.1.2 h.1.2 h.2
  · intro xs hlen
    match xs with
    | [] => rfl
    | [_] => rfl
    | [_, _] => rfl
    | [_, _, _] => exact absurd rfl hlen
    | _ :: _ :: _ :: _ :: _ => rfl
  · intro iv rv ev hbad
    cases hid : idWellTyped iv with
    | false =>
      unfold responseFromJson
      dsimp only
      rw [parseIdField_of_bad iv hid]
      rfl
    | true =>
      have herr : errWellTyped ev = false := by
        rcases hbad with h | h
        · rw [hid] at h
          cases h
        · exact h
      obtain ⟨i, hi⟩ := parseIdField_of_good iv hid
      obtain ⟨r, hr⟩ := parseResultField_ok rv
      unfold responseFromJson
      dsimp only
      rw [hi, hr, parseErrorField_of_bad ev herr]
      rfl
  · intro iv rv ev hid herr
    obtain ⟨i, hi⟩ := parseIdField_of_good iv hid
    obtain ⟨r, hr⟩ := parseResultField_ok rv
    obtain ⟨er, her⟩ := parseErrorField_of_good ev herr
    unfold responseFromJson
    dsimp only
    rw [hi, hr, her]
    rfl

/-- Witness for `send_command_malformed_response`: the worker writing
`not json` makes the call fail with the parse error; a bare string and
objects with an ill-typed `id` or `error` are rejected; an object with only
unknown and well-typed fields decodes; the positional array `[5,null,"boom"]`
decodes, while a two-element array and an array with a string at the `id`
position are rejected. -/
theorem send_command_malformed_response_witness :
    (send_command ⟨Except.ok echoChild, none,
        Except.ok (Line.malformed "expected ident at line 1 column 2")⟩
      ⟨some echoChild, 1⟩ "getSessions" []).ret
      = Except.error ("Failed to parse response: expected ident at line 1 column 2") ∧
    (responseFromJson (Json.str "not json")).isOk = false ∧
    (responseFromJson (Json.obj [("id", Json.str "x")])).isOk = false ∧
    (responseFromJson (Json.obj [("error", Json.num 5)])).isOk = false ∧
    (responseFromJson
      (Json.obj [("extra", Json.bool true), ("result", Json.null)])).isOk = true ∧
    (responseFromJson (Json.arr [Json.num 5, Json.null])).isOk = false ∧
    (responseFromJson (Json.arr [Json.str "x", Json.null, Json.null])).isOk = false ∧
    (responseFromJson (Json.arr [Json.num 5, Json.null, Json.str "boom"])).isOk = true :=
  ⟨send_command_malformed_response.1 _ _ echoChild _ _
      (Line.malformed "expected ident at line 1 column 2") _ rfl rfl rfl rfl rfl rfl,
    send_command_malformed_response.2.1 _ rfl rfl,
    send_command_malformed_response.2.2.1 _ rfl,
    send_command_malformed_response.2.2.2.1 _ rfl,
    send_command_malformed_response.2.2.2.2.1 _ rfl,
    send_command_malformed_response.2.2.2.2.2.1 _ (by decide),
    send_command_malformed_response.2.2.2.2.2.2.1 _ _ _ (Or.inl rfl),
    send_command_malformed_response.2.2.2.2.2.2.2 _ _ _ rfl rfl⟩

/-- C9: `delete_group id` clears the group reference (sets `group_id` to the
empty string) on exactly the profiles whose `group_id` equals the deleted id
and then removes the group rows with that id; every other field of every
profile, the profiles of other groups, and the proxy and workflow tables are
left unchanged. -/
theorem delete_group_cascades (db : Database) (gid : String) :
    (db.delete_group gid).proxies = db.proxies ∧
    (db.delete_group gid).workflows = db.workflows ∧
    (∀ g : DbGroup,
      g ∈ (db.delete_group gid).groups ↔ g ∈ db.groups ∧ g.id ≠ gid) ∧
    (db.delete_group gid).profiles.length = db.profiles.length ∧
    (∀ (k : Nat) (p q : DbProfile), db.profiles[k]? = some p →
      (db.delete_group gid).profiles[k]? = some q →
      q.group_id = (if p.group_id = gid then "" else p.group_id) ∧
      clearGroup q = clearGroup p) := by
  refine ⟨rfl, rfl, ?_, by simp [Database.delete_group], ?_⟩
  · intro g
    simp [Database.delete_group, List.mem_filter, bne_iff_ne]
  · intro k p q hp hq
    simp only [Database.delete_group] at hq
    rw [List.getElem?_map, hp, Option.map_some'] at hq
    by_cases h : p.group_id = gid
    · rw [if_pos h] at hq
      cases hq
      exact ⟨by rw [if_pos h], rfl⟩
    · rw [if_neg h] at hq
      cases hq
      exact ⟨by rw [if_neg h], rfl⟩

/-- A concrete profile row (the `profiles` table's column defaults), in
group `g1`. -/
def sampleProfile : DbProfile :=
  { id := "p1", name := "n", browser_type := "chrome", browser_version := "120",
    user_agent := "ua", os := "windows", platform := "Win32",
    viewport_width := 1920, viewport_height := 1080, screen_width := 1920,
    screen_height := 1080, color_depth := 24, pixel_ratio := 1.0,
    timezone_mode := "auto", timezone := "America/New_York",
    locale_mode := "auto", locale := "en-US", language := "en-US,en",
    country := "US", cpu_cores := 8, device_memory := 8, max_touch_points := 0,
    webgl_image_mode := "noise", webgl_metadata_mode := "custom",
    webgl_vendor := "v", webgl_renderer := "r", canvas_noise := 0.02,
    audio_noise := 0.0001, client_rects_noise := 0.1,
    webrtc_mode := "replace", webrtc_public_ip := "", geo_mode := "query",
    geo_latitude := 0.0, geo_longitude := 0.0, geo_accuracy := 100.0,
    media_devices_mode := "real", fake_cameras := 1, fake_microphones := 1,
    fake_speakers := 1, do_not_track := false, block_webrtc := false,
    block_canvas := false, block_audio_context := false, block_images := false,
    block_media := false, fonts := "[]", plugins := "[]", speech_voices := "[]",
    proxy_id := "", group_id := "g1", platform_tags := "[]", notes := "",
    bookmarks := "", status := "active", last_used_at := "", last_ip := "",
    created_at := "2024-01-01", updated_at := "2024-01-01" }

/-- A concrete group row with id `g1`. -/
def sampleGroup : DbGroup :=
  ⟨"g1", "Group", "#3b82f6", "", "2024-01-01", "2024-01-01"⟩

/-- A database holding one profile (in group `g1`) and one group (`g1`). -/
def sampleDb : Database := ⟨[sampleProfile], [], [], [sampleGroup]⟩

/-- Witness for `delete_group_cascades`: deleting `g1` from `sampleDb` keeps
the proxies table, clears the sample profile's group reference, and changes
none of its other fields. -/
theorem delete_group_cascades_witness :
    (sampleDb.delete_group "g1").proxies = sampleDb.proxies ∧
    (clearGroup sampleProfile).group_id
      = (if sampleProfile.group_id = "g1" then "" else sampleProfile.group_id) ∧
    clearGroup (clearGroup sampleProfile) = clearGroup sampleProfile :=
  ⟨(delete_group_cascades sampleDb "g1").1,
    ((delete_group_cascades sampleDb "g1").2.2.2.2 0 sampleProfile
      (clearGroup sampleProfile) rfl rfl).1,
    ((delete_group_cascades sampleDb "g1").2.2.2.2 0 sampleProfile
      (clearGroup sampleProfile) rfl rfl).2⟩

/-- C10: the list operations return fixed orders — `get_profiles`,
`get_proxies` and `get_workflows` return their tables newest first
(descending by `created_at`), and `get_groups` returns the groups in
ascending alphabetical order of `name`; each result is a permutation of its
table. -/
theorem list_operations_ordered (db : Database) :
    (List.Sorted (fun a b : DbProfile => b.created_at ≤ a.created_at)
        db.get_profiles ∧
      List.Perm db.get_profiles db.profiles) ∧
    (List.Sorted (fun a b : DbProxy => b.created_at ≤ a.created_at)
        db.get_proxies ∧
      List.Perm db.get_proxies db.proxies) ∧
    (List.Sorted (fun a b : DbWorkflow => b.created_at ≤ a.created_at)
        db.get_workflows ∧
      List.Perm db.get_workflows db.workflows) ∧
    (List.Sorted (fun a b : DbGroup => a.name ≤ b.name) db.get_groups ∧
      List.Perm db.get_groups db.groups) := by
  refine ⟨⟨?_, List.perm_insertionSort _ _⟩, ⟨?_, List.perm_insertionSort _ _⟩,
    ⟨?_, List.perm_insertionSort _ _⟩, ⟨?_, List.perm_insertionSort _ _⟩⟩
  · haveI : IsTotal DbProfile (fun a b => b.created_at ≤ a.created_at) :=
      ⟨fun a b => le_total b.created_at a.created_at⟩
    haveI : IsTrans DbProfile (fun a b => b.created_at ≤ a.created_at) :=
      ⟨fun _ _ _ h1 h2 => le_trans h2 h1⟩
    exact List.sorted_insertionSort _ _
  · haveI : IsTotal DbProxy (fun a b => b.created_at ≤ a.created_at) :=
      ⟨fun a b => le_total b.created_at a.created_at⟩
    haveI : IsTrans DbProxy (fun a b => b.created_at ≤ a.created_at) :=
      ⟨fun _ _ _ h1 h2 => le_trans h2 h1⟩
    exact List.sorted_insertionSort _ _
  · haveI : IsTotal DbWorkflow (fun a b => b.created_at ≤ a.created_at) :=
      ⟨fun a b => le_total b.created_at a.created_at⟩
    haveI : IsTrans DbWorkflow (fun a b => b.created_at ≤ a.created_at) :=
      ⟨fun _ _ _ h1 h2 => le_trans h2 h1⟩
    exact List.sorted_insertionSort _ _
  · haveI : IsTotal DbGroup (fun a b => a.name ≤ b.name) :=
      ⟨fun a b => le_total a.name b.name⟩
    haveI : IsTrans DbGroup (fun a b => a.name ≤ b.name) :=
      ⟨fun _ _ _ h1 h2 => le_trans h1 h2⟩
    exact List.sorted_insertionSort _ _

end MmoExpress
